import Mathlib

/-!
Shallow embedding of the prompt-refinement program
(`prompt_engineer_ai.py` and `app.py`).

Conventions of the embedding:
* Python floats (`0.8`, scores, `temperature`, `top_p`) are modelled as
  exact rationals; every float in the scoring path is a short decimal
  whose comparisons are exact, so the rational model agrees with the
  float semantics on every comparison the code performs.
* `re.search(pat, text, re.I)` is only ever applied to patterns that are
  alternations of literal words, so a pattern is modelled as a list of
  alternative literal strings and matching as case-insensitive substring
  containment.  Case folding covers ASCII and the Cyrillic range, the
  only alphabets occurring in the pattern table.
* Python `str.strip()` and `str.startswith` are modelled by structurally
  recursive list functions (`pyStrip`, `startsWithList`) so that they
  evaluate inside the kernel.
* External collaborators (the langdetect classifier, the Ollama backend,
  the YAML config store and the template store) are parameters of the
  embedded functions: the classifier is a fallible function
  `String → Except Unit String`, the backend a factory producing an
  `LLM` per `make_llm` argument list, and the loaded templates explicit
  association lists / strings.
* The best-effort `preload_keepalive` ping swallows its own errors and
  has no influence on any returned value; it is not a Generation
  Backend Adapter call (the spec counts only those), so it does not
  appear in the generation-call traces.
* Generation-call traces: `run_once` performs exactly one backend call,
  so the traced variants pair each embedded run with the one-element
  list of the `GenCall` it issues; entry points accumulate these lists.
-/

/-- Case folding used to model `re.I`: ASCII `A`-`Z`, Cyrillic `А`-`Я`
and `Ё` map to their lowercase forms; every other character is kept. -/
def lowerFold (c : Char) : Char :=
  let n := c.toNat
  if 65 ≤ n ∧ n ≤ 90 then Char.ofNat (n + 32)
  else if 0x410 ≤ n ∧ n ≤ 0x42F then Char.ofNat (n + 32)
  else if n = 0x401 then Char.ofNat 0x451
  else c

/-- Predicate `startsWithList l p` is true when `p` is an initial segment of `l`;
models Python `l.startswith(p)` on the underlying characters. -/
def startsWithList : List Char → List Char → Bool
  | _, [] => true
  | [], _ :: _ => false
  | c :: t, p :: pt => (c == p) && startsWithList t pt

/-- Predicate `containsSub pat l` is true when `pat` occurs contiguously in `l`. -/
def containsSub (pat : List Char) : List Char → Bool
  | [] => pat.isEmpty
  | c :: t => startsWithList (c :: t) pat || containsSub pat t

/-- Case-insensitive substring containment: models
`re.search(lit, text, re.I)` for a literal alternative `lit`. -/
def ciContains (pat text : String) : Bool :=
  containsSub (pat.data.map lowerFold) (text.data.map lowerFold)

/-- Whitespace stripped by Python `str.strip()` (the ASCII whitespace
classes; the texts scored by the program contain no exotic spaces). -/
def pyWS (c : Char) : Bool :=
  c == ' ' || c == '\t' || c == '\n' || c == '\r' || c == '\x0b' || c == '\x0c'

/-- Python `str.strip()`. -/
def pyStrip (s : String) : String :=
  String.mk (((s.data.dropWhile pyWS).reverse.dropWhile pyWS).reverse)

/-- Python `dict.get(k, default)` on an association list. -/
def dictGet {α : Type} (d : List (String × α)) (k : String) (default : α) : α :=
  match d.find? (fun p => p.1 == k) with
  | some p => p.2
  | none => default

/-- Source constant `SUPPORTED_MODES = ("coding", "image", "video", "chatgpt")`. -/
def SUPPORTED_MODES : List String := ["coding", "image", "video", "chatgpt"]

/-- The `RefinerConfig` dataclass with its hardcoded defaults. -/
structure RefinerConfig where
  model : String := "gpt-oss:20b"
  temperature : ℚ := 3/10
  top_p : ℚ := 9/10
  num_ctx : Nat := 2048
  max_bullets : Nat := 10
  base_url : Option String := none
  keep_alive : String := "30m"

/-- Function `detect_lang`: wraps the external statistical classifier (`detect`,
a parameter here) in try/except; any classifier failure yields the fixed
default `uz`, otherwise the returned code is bucketed into uz/ru/en via
`code.startswith`. -/
def detect_lang (detect : String → Except Unit String) (text : String) : String :=
  match detect text with
  | Except.error _ => "uz"
  | Except.ok code =>
    if startsWithList code.data "uz".data then "uz"
    else if startsWithList code.data "ru".data then "ru"
    else "en"

/-- Function `pick_system(lang, systems)`: `systems.get(lang, systems["uz"])`.
The systems table is always built with a `"uz"` key (`build_refiner`),
so the inner default of the model is never reached. -/
def pick_system (lang : String) (systems : List (String × String)) : String :=
  dictGet systems lang (dictGet systems "uz" "")

/-- Function `build_instruction(mode, modes_spec)`:
`modes_spec.get(mode, modes_spec["chatgpt"]).get("sections", [])`
rendered as a bulleted list.  A mode entry is modelled directly as its
`sections` list; the template store always defines `"chatgpt"`
(spec invariant), so the inner lookup is never a `KeyError`. -/
def build_instruction (mode : String) (modes_spec : List (String × List String)) : String :=
  let sections := dictGet modes_spec mode (dictGet modes_spec "chatgpt" [])
  let bullets := String.intercalate "\n" (sections.map (fun s => "- " ++ s))
  "Bo\x27limlar / Разделы:\n" ++ bullets

/-- The inline `checks` dict of `score_output`: each regex
`a|b` transliterated to its list of literal alternatives. -/
def checksTable : List (String × List (List String)) :=
  [("image", [["Maqsad"], ["Kompozitsiya", "Композиция"], ["Mavzu", "Детали"],
              ["Uslub", "Стиль"], ["Kamera", "Камера"], ["Chiqish", "Параметры"],
              ["Nimalar", "Исключить"], ["Tekshirish", "Уточняющий"]]),
   ("video", [["Maqsad", "Цель"], ["Syujet", "Сцены"], ["Kadr", "Шот"],
              ["Ovoz", "Озвучка"], ["Chiqish", "Параметры"], ["Tekshirish", "Уточняющий"]]),
   ("coding", [["Maqsad", "Цель"], ["Kirish", "Вход"], ["Cheklov", "Огранич"],
               ["Chiqish", "Формат"], ["Qadam", "Шаг"], ["Test", "Тест"],
               ["Tekshirish", "Уточняющий"]]),
   ("chatgpt", [["Maqsad", "Цель"], ["Rollar", "Роли"], ["Qadam", "Шаг"],
                ["Misol", "Пример"], ["Cheklov", "Огранич"], ["Tekshirish", "Уточняющий"]])]

/-- Lookup `checks.get(mode, [])`. -/
def checks (mode : String) : List (List String) :=
  dictGet checksTable mode []

/-- One checklist pattern matches when any of its literal alternatives
occurs in the text (case-insensitive), as `re.search(pat, text, re.I)`. -/
def patMatches (alts : List String) (text : String) : Bool :=
  alts.any (fun a => ciContains a text)

/-- The `hits` count of `score_output`:
`sum(1 for pat in needed if re.search(pat, text, re.I))`. -/
def score_hits (mode text : String) : Nat :=
  (checks mode).countP (fun pat => patMatches pat text)

/-- Function `score_output(mode, text)`: hits over checklist size (clamped to 1
below), scaled by `0.8` when the stripped text is not longer than 600
characters. -/
def score_output (mode : String) (text : String) : ℚ :=
  let needed := checks mode
  let hits := score_hits mode text
  let length_ok := (pyStrip text).length > 600
  let base : ℚ := (hits : ℚ) / ((Nat.max needed.length 1 : Nat) : ℚ)
  base * (if length_ok then 1 else 8/10)

/-- Abstraction of the `OllamaLLM` client returned by `make_llm`:
`invokeF` models `llm.invoke(prompt)`, `streamChunks` the finite
sequence of fragments produced by `llm.stream(prompt)`. -/
structure LLM where
  invokeF : String → String
  streamChunks : String → List String

/-- Function `make_llm(model, base_url, temperature, top_p, num_ctx)`; the
external constructor is the parameter `backendF`. -/
def make_llm (backendF : String → Option String → ℚ → ℚ → Nat → LLM)
    (model : String) (base_url : Option String) (temperature top_p : ℚ)
    (num_ctx : Nat) : LLM :=
  backendF model base_url temperature top_p num_ctx

/-- Function `stream_text(llm, prompt)`: concatenates the streamed fragments
(the incremental console echo is a side effect with no influence on the
returned value). -/
def stream_text (llm : LLM) (prompt : String) : String :=
  String.join (llm.streamChunks prompt)

/-- One Generation Backend Adapter invocation, as observed by a mock
backend: the argument tuple of `run_once`. -/
structure GenCall where
  model : String
  num_ctx : Nat
  prompt : String
  stream : Bool
deriving DecidableEq

/-- Class `PromptRefiner` with its constructor-injected state; the system
prompts and mode specs come from the external template store. -/
structure PromptRefiner where
  cfg : RefinerConfig
  system_prompts : List (String × String)
  modes_spec : List (String × List String)

/-- The worked uz example of `_make_prompt` (`examples["uz"]`). -/
def examples_uz_input : String := "rasm chiz: qizil mashina"

/-- Literal `examples["uz"]["output"]`. -/
def examples_uz_output : String :=
  "Maqsad: qizil sport avtomobilining realistik 3/4 rakursdagi rasmi.\n" ++
  "Kompozitsiya: bitta avtomobil, fon minimal, yo\x27l sirtida.\n" ++
  "Mavzu detali: kupe, porloq qizil, qora disklar.\n" ++
  "Uslub & Yoritish: kunduzgi diffuz yorug\x27, yumshoq soyalar.\n" ++
  "Kamera: 35mm, past rakurs.\n" ++
  "Chiqish parametrlari: 1024x1024.\n" ++
  "Nimalar kiritilmasin: odamlar, logotiplar.\n" ++
  "Tekshirish savoli: Fon rangini xohlaysizmi? (oq/ko\x27k/asfalt)"

/-- Literal `examples["ru"]["input"]`. -/
def examples_ru_input : String := "сделай промпт для телеграм-бота"

/-- Literal `examples["ru"]["output"]`. -/
def examples_ru_output : String :=
  "Цель: готовый промпт для чат-бота в Telegram.\n" ++
  "Роли: бот/пользователь/система.\n" ++
  "Шаги: классификация запроса → ответ → формат Markdown.\n" ++
  "Примеры: приветствие, /help, погода.\n" ++
  "Ограничения: 2000 символов, без ссылок, без ключей.\n" ++
  "Уточняющий вопрос: основной функционал бота?"

/-- Method `PromptRefiner._make_prompt(raw_prompt, mode)`: detects the language,
picks the system prompt and instruction, chooses the worked example by
testing whether the system text contains `"uz"`, and assembles the
composite instruction document (the surrounding f-string, `strip`ped).
`lang_ex` is always `uz` or `ru`, so the `'-'` placeholders of the dead
`ex is None` branch never appear. -/
def PromptRefiner.make_prompt (r : PromptRefiner)
    (detect : String → Except Unit String) (raw_prompt mode : String) : String :=
  let lang := detect_lang detect raw_prompt
  let system := pick_system lang r.system_prompts
  let instruction := build_instruction mode r.modes_spec
  let lang_ex := if containsSub "uz".data system.data then "uz" else "ru"
  let exInput := if lang_ex = "uz" then examples_uz_input else examples_ru_input
  let exOutput := if lang_ex = "uz" then examples_uz_output else examples_ru_output
  pyStrip ("\n" ++ system ++ "\n\n" ++
    "=== Yo\x27riqnoma / Инструкция ===\n" ++ instruction ++ "\n\n" ++
    "=== Misol / Пример ===\n" ++
    "Kirish / Вход: " ++ exInput ++ "\n" ++
    "Chiqish / Выход: " ++ exOutput ++ "\n\n" ++
    "=== Foydalanuvchi kirishi / Пользовательский ввод ===\n" ++
    raw_prompt ++ "\n\n" ++
    "=== Vazifa / Задача ===\n" ++
    "1) Kirishdan kelib chiqib, tanlangan rejimga mos ravishda to\x27liq TUZILGAN yakuniy PROMPT yozing.\n" ++
    "2) Tilni saqlang (UZ yoki RU). Max " ++ toString r.cfg.max_bullets ++ " banddan oshirmang.\n" ++
    "3) Agar kerak bo\x27lsa, \"Nimalar kiritilmasin / Исключить\" bandini qo\x27shing.\n")

/-- Method `PromptRefiner.run_once(model, num_ctx, prompt, stream)`: builds the
client and issues exactly one generation call, streamed or not. -/
def PromptRefiner.run_once (r : PromptRefiner)
    (backendF : String → Option String → ℚ → ℚ → Nat → LLM)
    (model : String) (num_ctx : Nat) (prompt : String) (stream : Bool) : String :=
  let llm := make_llm backendF model r.cfg.base_url r.cfg.temperature r.cfg.top_p num_ctx
  if stream then stream_text llm prompt else llm.invokeF prompt

/-- Instrumented `run_once` paired with the single `GenCall` it issues. -/
def PromptRefiner.run_once_traced (r : PromptRefiner)
    (backendF : String → Option String → ℚ → ℚ → Nat → LLM)
    (model : String) (num_ctx : Nat) (prompt : String) (stream : Bool) :
    String × List GenCall :=
  (r.run_once backendF model num_ctx prompt stream, [⟨model, num_ctx, prompt, stream⟩])

/-- Method `PromptRefiner.refine`: fires the best-effort keep-warm ping (a
no-op on the value level), builds the prompt, and runs one generation. -/
def PromptRefiner.refine (r : PromptRefiner)
    (backendF : String → Option String → ℚ → ℚ → Nat → LLM)
    (detect : String → Except Unit String)
    (raw_prompt mode model : String) (num_ctx : Nat) (stream : Bool) : String :=
  let prompt := r.make_prompt detect raw_prompt mode
  r.run_once backendF model num_ctx prompt stream

/-- The `__main__` run after argument/preset resolution (source lines
230-241): builds the prompt once, runs the first attempt with the
resolved `(model, num_ctx)`, and, when `--cascade` was given and the
score of the first text is below `0.8`, runs one fallback attempt with
`"gpt-oss:20b"` and the loaded config's `num_ctx`, replacing the text.
`cfg` is the `load_config()` result of `__main__`; `r` is the refiner
from `build_refiner()`. -/
def cli_run (backendF : String → Option String → ℚ → ℚ → Nat → LLM)
    (detect : String → Except Unit String) (r : PromptRefiner) (cfg : RefinerConfig)
    (raw_prompt mode model : String) (num_ctx : Nat) (stream cascade : Bool) :
    String × List GenCall :=
  let prompt := r.make_prompt detect raw_prompt mode
  let first := r.run_once_traced backendF model num_ctx prompt stream
  if cascade then
    let s := score_output mode first.1
    if s < 8/10 then
      let second := r.run_once_traced backendF "gpt-oss:20b" cfg.num_ctx prompt stream
      (second.1, first.2 ++ second.2)
    else first
  else first

/-- A library-preset entry (`{"model": …, "num_ctx": …}`). -/
structure Preset where
  model : String
  num_ctx : Nat
deriving DecidableEq

/-- The preset table of the module-level `refine` function. -/
def lib_presets (cfg : RefinerConfig) : List (String × Preset) :=
  [("speed", ⟨"qwen2.5:7b", 2048⟩),
   ("balanced", ⟨"mistral:latest", 4096⟩),
   ("max", ⟨cfg.model, cfg.num_ctx⟩)]

/-- The module-level `refine(text, mode="chatgpt", profile="balanced")`
serving external apps: resolves the profile via
`presets.get(profile, presets["balanced"])` (the inner default is dead,
`"balanced"` being a key), builds the refiner from the loaded config and
templates, and generates once with `stream=False`; paired with its
generation-call trace. -/
def refine (backendF : String → Option String → ℚ → ℚ → Nat → LLM)
    (detect : String → Except Unit String) (cfg : RefinerConfig)
    (systems : List (String × String)) (modes_spec : List (String × List String))
    (text : String) (mode : String := "chatgpt") (profile : String := "balanced") :
    String × List GenCall :=
  let r : PromptRefiner := ⟨cfg, systems, modes_spec⟩
  let presets := lib_presets cfg
  let prof := dictGet presets profile (dictGet presets "balanced" ⟨"", 0⟩)
  (r.refine backendF detect text mode prof.model prof.num_ctx false,
   [⟨prof.model, prof.num_ctx, r.make_prompt detect text mode, false⟩])

/-- Model `PromptRequest` of `app.py` with its field defaults. -/
structure PromptRequest where
  text : String
  mode : String := "chatgpt"
  profile : String := "speed"

/-- The `POST /refine` response body `{input, mode, profile, refined}`. -/
structure RefineResponse where
  input : String
  mode : String
  profile : String
  refined : String

/-- The `POST /refine` handler: delegates to the module-level `refine`
with `profile = request.profile or "speed"` (Python falsiness: the empty
string also falls back), echoing the request fields. -/
def refine_prompt (backendF : String → Option String → ℚ → ℚ → Nat → LLM)
    (detect : String → Except Unit String) (cfg : RefinerConfig)
    (systems : List (String × String)) (modes_spec : List (String × List String))
    (request : PromptRequest) : RefineResponse × List GenCall :=
  let res := refine backendF detect cfg systems modes_spec request.text request.mode
      (if request.profile == "" then "speed" else request.profile)
  (⟨request.text, request.mode, request.profile, res.1⟩, res.2)

/-- Fallible variant of the backend client, for the error-propagation
policy: each call either returns text (all fragments, for streaming) or
raises. -/
structure LLME (ε : Type) where
  invokeF : String → Except ε String
  streamChunks : String → Except ε (List String)

/-- Variant of `stream_text` over a fallible client: a backend failure mid-stream
aborts the concatenation with that error. -/
def stream_textE {ε : Type} (llm : LLME ε) (prompt : String) : Except ε String :=
  (llm.streamChunks prompt).map String.join

/-- Variant of `run_once` over a fallible backend: no try/except — whatever the
backend call produces is returned as is. -/
def PromptRefiner.run_onceE {ε : Type} (r : PromptRefiner)
    (backendF : String → Option String → ℚ → ℚ → Nat → LLME ε)
    (model : String) (num_ctx : Nat) (prompt : String) (stream : Bool) :
    Except ε String :=
  let llm := backendF model r.cfg.base_url r.cfg.temperature r.cfg.top_p num_ctx
  if stream then stream_textE llm prompt else llm.invokeF prompt

/-- Variant of `PromptRefiner.refine` over a fallible backend: prompt building and
the keep-warm ping cannot fail (the ping swallows its own errors); the
generation call's outcome is returned as is. -/
def PromptRefiner.refineE {ε : Type} (r : PromptRefiner)
    (backendF : String → Option String → ℚ → ℚ → Nat → LLME ε)
    (detect : String → Except Unit String)
    (raw_prompt mode model : String) (num_ctx : Nat) (stream : Bool) :
    Except ε String :=
  let prompt := r.make_prompt detect raw_prompt mode
  r.run_onceE backendF model num_ctx prompt stream

/-! ### General lemmas about the embedded definitions -/

/-- Structural unfolding of `score_output`. -/
lemma score_output_eq (mode text : String) :
    score_output mode text =
      (score_hits mode text : ℚ) / ((Nat.max (checks mode).length 1 : Nat) : ℚ) *
        (if 600 < (pyStrip text).length then 1 else 8/10) := rfl

/-- Lookup `dict.get` with a default reduces to the default when no key of the
table equals the requested key. -/
lemma dictGet_not_mem {α : Type} (d : List (String × α)) (k : String) (a : α)
    (h : ∀ p ∈ d, p.1 ≠ k) : dictGet d k a = a := by
  unfold dictGet
  have hnone : d.find? (fun p => p.1 == k) = none := by
    rw [List.find?_eq_none]
    intro p hp
    simpa using h p hp
  rw [hnone]

/-- Looking a key up with itself as fallback collapses the fallback. -/
lemma dictGet_self_default {α : Type} (d : List (String × α)) (k : String) (a : α) :
    dictGet d k (dictGet d k a) = dictGet d k a := by
  unfold dictGet
  cases h : d.find? (fun p => p.1 == k) <;> simp

/-- Quality scores are never negative. -/
lemma score_output_nonneg (mode text : String) : 0 ≤ score_output mode text := by
  rw [score_output_eq]
  apply mul_nonneg
  · positivity
  · split <;> norm_num

/-- Quality scores never exceed one. -/
lemma score_output_le_one (mode text : String) : score_output mode text ≤ 1 := by
  rw [score_output_eq]
  have hle : (score_hits mode text : ℚ) ≤ ((Nat.max (checks mode).length 1 : Nat) : ℚ) := by
    exact_mod_cast le_trans (List.countP_le_length _) (Nat.le_max_left _ _)
  have hpos : (0 : ℚ) < ((Nat.max (checks mode).length 1 : Nat) : ℚ) := by
    exact_mod_cast Nat.lt_of_lt_of_le Nat.one_pos (Nat.le_max_right _ _)
  have hbase : (score_hits mode text : ℚ) / ((Nat.max (checks mode).length 1 : Nat) : ℚ) ≤ 1 :=
    (div_le_one hpos).mpr hle
  have hbase0 : 0 ≤ (score_hits mode text : ℚ) / ((Nat.max (checks mode).length 1 : Nat) : ℚ) := by
    positivity
  have hfac0 : (0 : ℚ) ≤ (if 600 < (pyStrip text).length then 1 else 8/10) := by
    split <;> norm_num
  have hfac1 : (if 600 < (pyStrip text).length then (1 : ℚ) else 8/10) ≤ 1 := by
    split <;> norm_num
  exact mul_le_one₀ hbase hfac0 hfac1

/-- Concrete evaluation: the empty output scores strictly below the
cascade threshold in chatgpt mode. -/
lemma score_chatgpt_empty_lt : score_output "chatgpt" "" < 8/10 := by
  rw [score_output_eq]
  have h : score_hits "chatgpt" "" = 0 := by decide
  have hl : (pyStrip "").length = 0 := by decide
  rw [h, hl]
  norm_num

/-- A short output carrying all six chatgpt markers. -/
def goodText : String := "Maqsad Rollar Qadam Misol Cheklov Tekshirish"

/-- Concrete evaluation: `goodText` scores exactly `0.8` in chatgpt
mode (all six markers, short text). -/
lemma score_chatgpt_good : score_output "chatgpt" goodText = 8/10 := by
  rw [score_output_eq]
  have h : score_hits "chatgpt" goodText = 6 := by decide
  have hl : (pyStrip goodText).length = 44 := by decide
  have hc : (checks "chatgpt").length = 6 := by decide
  have hm : Nat.max 6 1 = 6 := by decide
  rw [h, hl, hc, hm]
  norm_num

/-- Concrete evaluation: `"Maqsad"` hits one of six chatgpt markers and
is short, so it scores `(1/6)·0.8 = 2/15`. -/
lemma score_chatgpt_Maqsad : score_output "chatgpt" "Maqsad" = 2/15 := by
  rw [score_output_eq]
  have h : score_hits "chatgpt" "Maqsad" = 1 := by decide
  have hl : (pyStrip "Maqsad").length = 6 := by decide
  have hc : (checks "chatgpt").length = 6 := by decide
  have hm : Nat.max 6 1 = 6 := by decide
  rw [h, hl, hc, hm]
  norm_num

/-- Concrete evaluation: under an unknown mode every text scores 0. -/
lemma score_foo_Maqsad : score_output "foo" "Maqsad" = 0 := by
  rw [score_output_eq]
  have h : score_hits "foo" "Maqsad" = 0 := by decide
  rw [h]
  norm_num

/-! ### Claims C4-C7 -/

/-- Claim C4, counterexample: `score_output` does not alias unknown
modes to the chatgpt checklist — at mode `"foo"` and text `"Maqsad"`
the two scores differ (`0` versus `2/15`). -/
theorem score_unknown_mode_not_chatgpt_alias :
    score_output "foo" "Maqsad" ≠ score_output "chatgpt" "Maqsad" := by
  rw [score_foo_Maqsad, score_chatgpt_Maqsad]
  norm_num

/-- Claim C4 (amended): for a mode outside the supported set (and a
template store keyed only by supported modes), `build_instruction`
behaves exactly as for `"chatgpt"`, while `score_output` scores against
the empty checklist and returns `0` for every text — it does not follow
the chatgpt checklist. -/
theorem unknown_mode_build_aliases_score_zero
    (mode : String) (modes_spec : List (String × List String)) (text : String)
    (hkeys : ∀ p ∈ modes_spec, p.1 ∈ SUPPORTED_MODES) (hm : mode ∉ SUPPORTED_MODES) :
    build_instruction mode modes_spec = build_instruction "chatgpt" modes_spec ∧
    score_output mode text = 0 := by
  constructor
  · unfold build_instruction
    have h1 : dictGet modes_spec mode (dictGet modes_spec "chatgpt" []) =
        dictGet modes_spec "chatgpt" [] := by
      apply dictGet_not_mem
      intro p hp hpk
      exact hm (hpk ▸ hkeys p hp)
    rw [h1, dictGet_self_default]
  · have hchecks : checks mode = [] := by
      apply dictGet_not_mem
      intro p hp hpk
      apply hm
      rw [← hpk]
      fin_cases hp <;> decide
    rw [score_output_eq]
    have hh : score_hits mode text = 0 := by
      unfold score_hits
      rw [hchecks]
      rfl
    rw [hh, hchecks]
    norm_num

/-- Claim C4 witness: instantiated at mode `"foo"`, a one-entry template
store and text `"Maqsad"`. -/
theorem unknown_mode_build_aliases_score_zero_witness :
    build_instruction "foo" [("chatgpt", ["Maqsad"])] =
      build_instruction "chatgpt" [("chatgpt", ["Maqsad"])] ∧
    score_output "foo" "Maqsad" = 0 :=
  unknown_mode_build_aliases_score_zero "foo" [("chatgpt", ["Maqsad"])] "Maqsad"
    (by decide) (by decide)

/-- Claim C5: for each supported mode the score is the number of
matching checklist patterns over the checklist length, scaled by `1`
when the stripped text exceeds 600 characters and by `0.8` otherwise,
and it always lies in `[0, 1]`. -/
theorem score_known_mode_formula_and_bounds (mode text : String)
    (hm : mode ∈ ["chatgpt", "image", "video", "coding"]) :
    score_output mode text =
      ((checks mode).countP (fun pat => patMatches pat text) : ℚ) / ((checks mode).length : ℚ) *
        (if 600 < (pyStrip text).length then 1 else 8/10) ∧
    0 ≤ score_output mode text ∧ score_output mode text ≤ 1 := by
  refine ⟨?_, score_output_nonneg mode text, score_output_le_one mode text⟩
  fin_cases hm <;> rfl

/-- Claim C5 witness: instantiated at mode `"image"`, text `"Maqsad"`. -/
theorem score_known_mode_formula_and_bounds_witness :
    score_output "image" "Maqsad" =
      ((checks "image").countP (fun pat => patMatches pat "Maqsad") : ℚ) /
          ((checks "image").length : ℚ) *
        (if 600 < (pyStrip "Maqsad").length then 1 else 8/10) ∧
    0 ≤ score_output "image" "Maqsad" ∧ score_output "image" "Maqsad" ≤ 1 :=
  score_known_mode_formula_and_bounds "image" "Maqsad" (by decide)

/-- A mock backend whose client answers every prompt with the empty
string and streams nothing. -/
def mockLLMEmpty : LLM := ⟨fun _ => "", fun _ => []⟩

/-- Factory for `mockLLMEmpty`, ignoring all client parameters. -/
def mockBackendEmpty : String → Option String → ℚ → ℚ → Nat → LLM :=
  fun _ _ _ _ _ => mockLLMEmpty

/-- A mock backend whose client answers every prompt with `goodText`. -/
def mockLLMGood : LLM := ⟨fun _ => goodText, fun _ => []⟩

/-- Factory for `mockLLMGood`, ignoring all client parameters. -/
def mockBackendGood : String → Option String → ℚ → ℚ → Nat → LLM :=
  fun _ _ _ _ _ => mockLLMGood

/-- A mock classifier that always reports English. -/
def mockDetect : String → Except Unit String := fun _ => Except.ok "en"

/-- A refiner over the default config and empty template stores. -/
def mockRefiner : PromptRefiner := ⟨{}, [], []⟩

/-- Claim C6: for every profile string other than the three presets, the
library `refine` resolves to the balanced preset — its single generation
call uses model `mistral:latest` with `num_ctx` 4096. -/
theorem unknown_profile_resolves_balanced
    (backendF : String → Option String → ℚ → ℚ → Nat → LLM)
    (detect : String → Except Unit String) (cfg : RefinerConfig)
    (systems : List (String × String)) (modes_spec : List (String × List String))
    (text mode profile : String)
    (h1 : profile ≠ "speed") (h2 : profile ≠ "balanced") (h3 : profile ≠ "max") :
    (refine backendF detect cfg systems modes_spec text mode profile).2.map
        (fun c => (c.model, c.num_ctx)) = [("mistral:latest", 4096)] := by
  have e1 : ("speed" == profile) = false := beq_eq_false_iff_ne.mpr (fun he => h1 he.symm)
  have e2 : ("balanced" == profile) = false := beq_eq_false_iff_ne.mpr (fun he => h2 he.symm)
  have e3 : ("max" == profile) = false := beq_eq_false_iff_ne.mpr (fun he => h3 he.symm)
  have hprof : dictGet (lib_presets cfg) profile (dictGet (lib_presets cfg) "balanced" ⟨"", 0⟩) =
      (⟨"mistral:latest", 4096⟩ : Preset) := by
    simp [dictGet, lib_presets, List.find?, e1, e2, e3]
  simp only [refine]
  rw [hprof]
  rfl

/-- Claim C6 witness: instantiated at the unknown profile `"turbo"`. -/
theorem unknown_profile_resolves_balanced_witness :
    (refine mockBackendEmpty mockDetect {} [] [] "salom" "chatgpt" "turbo").2.map
        (fun c => (c.model, c.num_ctx)) = [("mistral:latest", 4096)] :=
  unknown_profile_resolves_balanced mockBackendEmpty mockDetect {} [] [] "salom" "chatgpt"
    "turbo" (by decide) (by decide) (by decide)

/-- Claim C7, counterexample: calling the library `refine` with the
profile argument omitted does not select the speed preset
(`qwen2.5:7b`, 2048) — its default is `balanced`. -/
theorem lib_refine_default_profile_not_speed :
    ¬ (refine mockBackendEmpty mockDetect {} [] [] "salom").2.map
        (fun c => (c.model, c.num_ctx)) = [("qwen2.5:7b", 2048)] := by
  intro h
  have hval : (refine mockBackendEmpty mockDetect {} [] [] "salom").2.map
      (fun c => (c.model, c.num_ctx)) = [("mistral:latest", 4096)] := rfl
  rw [hval] at h
  simp at h

/-- Claim C7 (amended): a request omitting the profile field defaults to
the speed preset (`qwen2.5:7b`, `num_ctx` 2048) at the HTTP endpoint,
but the library `refine` entry point called without a profile defaults
to the balanced preset (`mistral:latest`, `num_ctx` 4096). -/
theorem default_profile_http_speed_lib_balanced
    (backendF : String → Option String → ℚ → ℚ → Nat → LLM)
    (detect : String → Except Unit String) (cfg : RefinerConfig)
    (systems : List (String × String)) (modes_spec : List (String × List String))
    (text mode : String) :
    (refine_prompt backendF detect cfg systems modes_spec
        { text := text, mode := mode }).2.map (fun c => (c.model, c.num_ctx)) =
      [("qwen2.5:7b", 2048)] ∧
    (refine backendF detect cfg systems modes_spec text mode).2.map
        (fun c => (c.model, c.num_ctx)) = [("mistral:latest", 4096)] := by
  exact ⟨rfl, rfl⟩

/-! ### Claims C1-C3 -/

/-- Structural unfolding of the cascade branch of `cli_run`. -/
lemma cli_run_cascade_unfold
    (backendF : String → Option String → ℚ → ℚ → Nat → LLM)
    (detect : String → Except Unit String) (r : PromptRefiner) (cfg : RefinerConfig)
    (raw_prompt mode model : String) (num_ctx : Nat) (stream : Bool) :
    cli_run backendF detect r cfg raw_prompt mode model num_ctx stream true =
      if score_output mode
          (r.run_once backendF model num_ctx (r.make_prompt detect raw_prompt mode) stream) < 8/10
      then (r.run_once backendF "gpt-oss:20b" cfg.num_ctx (r.make_prompt detect raw_prompt mode) stream,
            [GenCall.mk model num_ctx (r.make_prompt detect raw_prompt mode) stream,
             GenCall.mk "gpt-oss:20b" cfg.num_ctx (r.make_prompt detect raw_prompt mode) stream])
      else (r.run_once backendF model num_ctx (r.make_prompt detect raw_prompt mode) stream,
            [GenCall.mk model num_ctx (r.make_prompt detect raw_prompt mode) stream]) := rfl

/-- Claim C1: with cascade requested, the CLI run invokes the fallback
exactly when the first attempt scores below `0.8`.  At a score of at
least `0.8` the run returns the first text after a single generation
call; below `0.8` exactly one fallback call occurs, with model
`"gpt-oss:20b"` and the loaded config's `num_ctx` (not the profile's),
and its result replaces the first text.  The traces show at most one
fallback attempt in every case. -/
theorem cascade_fallback_iff_low_score
    (backendF : String → Option String → ℚ → ℚ → Nat → LLM)
    (detect : String → Except Unit String) (r : PromptRefiner) (cfg : RefinerConfig)
    (raw_prompt mode model : String) (num_ctx : Nat) (stream : Bool) :
    (8/10 ≤ score_output mode
        (r.run_once backendF model num_ctx (r.make_prompt detect raw_prompt mode) stream) →
      cli_run backendF detect r cfg raw_prompt mode model num_ctx stream true =
        (r.run_once backendF model num_ctx (r.make_prompt detect raw_prompt mode) stream,
         [⟨model, num_ctx, r.make_prompt detect raw_prompt mode, stream⟩])) ∧
    (score_output mode
        (r.run_once backendF model num_ctx (r.make_prompt detect raw_prompt mode) stream) < 8/10 →
      cli_run backendF detect r cfg raw_prompt mode model num_ctx stream true =
        (r.run_once backendF "gpt-oss:20b" cfg.num_ctx (r.make_prompt detect raw_prompt mode) stream,
         [⟨model, num_ctx, r.make_prompt detect raw_prompt mode, stream⟩,
          ⟨"gpt-oss:20b", cfg.num_ctx, r.make_prompt detect raw_prompt mode, stream⟩])) := by
  constructor
  · intro h
    rw [cli_run_cascade_unfold, if_neg (not_lt.mpr h)]
  · intro h
    rw [cli_run_cascade_unfold, if_pos h]

/-- Claim C1 witness: against the empty-answer mock backend (score 0)
the cascade performs the fallback call with the config's `num_ctx`
2048; against the `goodText` mock backend (score exactly 0.8) a single
call occurs. -/
theorem cascade_fallback_iff_low_score_witness :
    ((cli_run mockBackendEmpty mockDetect mockRefiner {} "salom" "chatgpt" "m1" 7 false
        true).2.map (fun c => (c.model, c.num_ctx)) = [("m1", 7), ("gpt-oss:20b", 2048)]) ∧
    ((cli_run mockBackendGood mockDetect mockRefiner {} "salom" "chatgpt" "m1" 7 false
        true).2.map (fun c => (c.model, c.num_ctx)) = [("m1", 7)]) := by
  constructor
  · have h := (cascade_fallback_iff_low_score mockBackendEmpty mockDetect mockRefiner {}
        "salom" "chatgpt" "m1" 7 false).2 score_chatgpt_empty_lt
    rw [h]
    rfl
  · have h := (cascade_fallback_iff_low_score mockBackendGood mockDetect mockRefiner {}
        "salom" "chatgpt" "m1" 7 false).1 (le_of_eq score_chatgpt_good.symm)
    rw [h]
    rfl

/-- Claim C2: in a cascaded refinement that falls back, both generation
calls carry the identical prompt string — the instruction prompt built
once before the first attempt — and the same streaming flag; the two
calls differ only in model and `num_ctx`. -/
theorem cascade_prompt_built_once
    (backendF : String → Option String → ℚ → ℚ → Nat → LLM)
    (detect : String → Except Unit String) (r : PromptRefiner) (cfg : RefinerConfig)
    (raw_prompt mode model : String) (num_ctx : Nat) (stream : Bool)
    (h : score_output mode
        (r.run_once backendF model num_ctx (r.make_prompt detect raw_prompt mode) stream) < 8/10) :
    ((cli_run backendF detect r cfg raw_prompt mode model num_ctx stream true).2.map
        GenCall.prompt =
      [r.make_prompt detect raw_prompt mode, r.make_prompt detect raw_prompt mode]) ∧
    ((cli_run backendF detect r cfg raw_prompt mode model num_ctx stream true).2.map
        GenCall.stream = [stream, stream]) ∧
    ((cli_run backendF detect r cfg raw_prompt mode model num_ctx stream true).2.map
        GenCall.model = [model, "gpt-oss:20b"]) ∧
    ((cli_run backendF detect r cfg raw_prompt mode model num_ctx stream true).2.map
        GenCall.num_ctx = [num_ctx, cfg.num_ctx]) := by
  have hcli : cli_run backendF detect r cfg raw_prompt mode model num_ctx stream true =
      (r.run_once backendF "gpt-oss:20b" cfg.num_ctx (r.make_prompt detect raw_prompt mode) stream,
       [GenCall.mk model num_ctx (r.make_prompt detect raw_prompt mode) stream,
        GenCall.mk "gpt-oss:20b" cfg.num_ctx (r.make_prompt detect raw_prompt mode) stream]) := by
    rw [cli_run_cascade_unfold, if_pos h]
  rw [hcli]
  exact ⟨rfl, rfl, rfl, rfl⟩

/-- Claim C2 witness: instantiated against the empty-answer mock
backend, whose first attempt scores 0. -/
theorem cascade_prompt_built_once_witness :
    ((cli_run mockBackendEmpty mockDetect mockRefiner {} "salom" "chatgpt" "m1" 7 false
        true).2.map GenCall.prompt =
      [mockRefiner.make_prompt mockDetect "salom" "chatgpt",
       mockRefiner.make_prompt mockDetect "salom" "chatgpt"]) ∧
    ((cli_run mockBackendEmpty mockDetect mockRefiner {} "salom" "chatgpt" "m1" 7 false
        true).2.map GenCall.stream = [false, false]) ∧
    ((cli_run mockBackendEmpty mockDetect mockRefiner {} "salom" "chatgpt" "m1" 7 false
        true).2.map GenCall.model = [("m1" : String), "gpt-oss:20b"]) ∧
    ((cli_run mockBackendEmpty mockDetect mockRefiner {} "salom" "chatgpt" "m1" 7 false
        true).2.map GenCall.num_ctx = [7, 2048]) :=
  cascade_prompt_built_once mockBackendEmpty mockDetect mockRefiner {} "salom" "chatgpt"
    "m1" 7 false score_chatgpt_empty_lt

/-- Claim C3: the library entry point behind `POST /refine` always
performs exactly one generation call, with `stream = false`, for every
profile and whatever the backend answers (hence whatever its quality
score is) — no cascade fallback is reachable from it. -/
theorem refine_lib_single_call_no_cascade
    (backendF : String → Option String → ℚ → ℚ → Nat → LLM)
    (detect : String → Except Unit String) (cfg : RefinerConfig)
    (systems : List (String × String)) (modes_spec : List (String × List String))
    (text mode profile : String) :
    (refine backendF detect cfg systems modes_spec text mode profile).2.length = 1 ∧
    (refine backendF detect cfg systems modes_spec text mode profile).2.map
        GenCall.stream = [false] :=
  ⟨rfl, rfl⟩

/-! ### Claims C8-C10 -/

/-- Claim C8: language detection always lands in `{uz, ru, en}` (and,
being a total function of the embedded code, never raises), and on any
classifier failure it returns the fixed default `"uz"`. -/
theorem detect_lang_closed_and_defaults
    (detect : String → Except Unit String) (text : String) :
    (detect_lang detect text = "uz" ∨ detect_lang detect text = "ru" ∨
      detect_lang detect text = "en") ∧
    (∀ e : Unit, detect text = Except.error e → detect_lang detect text = "uz") := by
  constructor
  · unfold detect_lang
    cases hd : detect text with
    | error e => exact Or.inl rfl
    | ok code =>
      by_cases h1 : startsWithList code.data "uz".data
      · simp [h1]
      · by_cases h2 : startsWithList code.data "ru".data
        · simp [h1, h2]
        · simp [h1, h2]
  · intro e he
    unfold detect_lang
    rw [he]

/-- Claim C8 witness: a classifier that fails on the empty input (as
the statistical detector does) yields the default `"uz"`. -/
theorem detect_lang_closed_and_defaults_witness :
    detect_lang (fun _ => Except.error ()) "" = "uz" :=
  (detect_lang_closed_and_defaults (fun _ => Except.error ()) "").2 () rfl

/-- Claim C9: neither `run_once` nor `refine` catches backend errors —
a failure of the generation call (non-streamed or streamed) surfaces
from the refiner entry point as that very error, and no text is
returned in that case. -/
theorem backend_errors_propagate_unmodified {ε : Type} (r : PromptRefiner)
    (backendF : String → Option String → ℚ → ℚ → Nat → LLME ε)
    (detect : String → Except Unit String) (raw_prompt mode model : String)
    (num_ctx : Nat) (e : ε) :
    ((backendF model r.cfg.base_url r.cfg.temperature r.cfg.top_p num_ctx).invokeF
        (r.make_prompt detect raw_prompt mode) = Except.error e →
      r.refineE backendF detect raw_prompt mode model num_ctx false = Except.error e) ∧
    ((backendF model r.cfg.base_url r.cfg.temperature r.cfg.top_p num_ctx).streamChunks
        (r.make_prompt detect raw_prompt mode) = Except.error e →
      r.refineE backendF detect raw_prompt mode model num_ctx true = Except.error e) := by
  constructor
  · intro h
    exact h
  · intro h
    show Except.map String.join
        ((backendF model r.cfg.base_url r.cfg.temperature r.cfg.top_p num_ctx).streamChunks
          (r.make_prompt detect raw_prompt mode)) = Except.error e
    rw [h]
    rfl

/-- A backend whose every call fails. -/
def errBackend : String → Option String → ℚ → ℚ → Nat → LLME Unit :=
  fun _ _ _ _ _ => ⟨fun _ => Except.error (), fun _ => Except.error ()⟩

/-- Claim C9 witness: against an always-failing backend the refiner
returns exactly that error. -/
theorem backend_errors_propagate_unmodified_witness :
    mockRefiner.refineE errBackend mockDetect "salom" "chatgpt" "m1" 7 false =
      Except.error () :=
  (backend_errors_propagate_unmodified mockRefiner errBackend mockDetect "salom" "chatgpt"
    "m1" 7 ()).1 rfl

/-- Claim C10: for identical `(model, num_ctx, prompt)` against a
backend whose streamed fragments concatenate to its non-streamed
response, `run_once` returns the same text with `stream = true` and
`stream = false`. -/
theorem stream_and_invoke_agree (r : PromptRefiner)
    (backendF : String → Option String → ℚ → ℚ → Nat → LLM)
    (model : String) (num_ctx : Nat) (prompt : String)
    (h : String.join ((make_llm backendF model r.cfg.base_url r.cfg.temperature r.cfg.top_p
        num_ctx).streamChunks prompt) =
      (make_llm backendF model r.cfg.base_url r.cfg.temperature r.cfg.top_p
        num_ctx).invokeF prompt) :
    r.run_once backendF model num_ctx prompt true =
      r.run_once backendF model num_ctx prompt false :=
  h

/-- A backend streaming `["fo", "o"]` and answering `"foo"`. -/
def chunkLLM : LLM := ⟨fun _ => "foo", fun _ => ["fo", "o"]⟩

/-- Factory for `chunkLLM`, ignoring all client parameters. -/
def chunkBackend : String → Option String → ℚ → ℚ → Nat → LLM := fun _ _ _ _ _ => chunkLLM

/-- Claim C10 witness: instantiated at the coherent chunked backend. -/
theorem stream_and_invoke_agree_witness :
    mockRefiner.run_once chunkBackend "m1" 7 "p" true =
      mockRefiner.run_once chunkBackend "m1" 7 "p" false :=
  stream_and_invoke_agree mockRefiner chunkBackend "m1" 7 "p" rfl
